import Mathlib

/-!
Shallow embedding of the bidirectional-streaming bridge pattern of the
adk-streaming-guide repository, and proofs about the frozen claims.

The embedded code lives in:
  * `src/demo/streaming_app.py`   (ws_handler: consume_messages / forward_events,
                                   credential save/restore, /sse endpoint)
  * `src/part2/streaming_app.py`  (same consume_messages / forward_events shape)
  * `src/demo/app/main.py`        (websocket_endpoint: consume_messages via
                                   parse_message, _set_credentials,
                                   _restore_credentials, /sse-send, /sse-close)
  * `src/demo/app/bidi_streaming.py` (parse_message, get_or_create_session,
                                   StreamingSession.send_text / close)
  * `src/bidi-demo/app/main.py`   (websocket_endpoint: upstream_task /
                                   downstream_task, base64 audio decoding)

External SDK structures (LiveRequestQueue, InMemorySessionService) are
modelled from the spec where noted; everything else is translated from the
repository source.
-/

namespace AdkBridge

/-- `google.genai.types.Content(parts=[types.Part(text=...)])` as built by every
bridge variant: the only shape of Content this repository constructs. -/
structure Content where
  text : String
  deriving DecidableEq, Repr

/-- `google.genai.types.Blob(mime_type=..., data=...)`; bytes are modelled as a
list of naturals below 256. -/
structure Blob where
  mime_type : String
  data : List Nat
  deriving DecidableEq, Repr

/-- `google.adk.agents.live_request_queue.LiveRequest`: optional content,
optional realtime blob, and a close flag (pydantic default `False`). -/
structure LiveRequest where
  content : Option Content := none
  blob : Option Blob := none
  close : Bool := false
  deriving DecidableEq, Repr

/-- `LiveRequestQueue.send_content(Content(parts=[Part(text=t)]))` payload. -/
def LiveRequest.ofContent (t : String) : LiveRequest :=
  { content := some ⟨t⟩ }

/-- `LiveRequestQueue.send_realtime(Blob(mime_type=m, data=d))` payload. -/
def LiveRequest.ofBlob (m : String) (d : List Nat) : LiveRequest :=
  { blob := some ⟨m, d⟩ }

/-- The terminal request produced by `LiveRequestQueue.close()`; spec section 4.2
says closing makes "the consumer side observe a terminal close request". -/
def closeRequest : LiveRequest :=
  { close := true }

/-- One observable action a bridge task performs on the shared LiveRequestQueue:
either enqueueing a request (`send` / `send_content` / `send_realtime`) or
invoking `close()`. -/
inductive Action where
  | enqueue (r : LiveRequest)
  | closeQueue
  deriving DecidableEq, Repr

/-- Queue items resulting from a trace of actions.  Modelled from the spec:
section 4.2 states that `close()` makes the consumer observe a terminal close
request, so a `closeQueue` action contributes `closeRequest` to the queue. -/
def queueItemsOf (tr : List Action) : List LiveRequest :=
  tr.flatMap fun a =>
    match a with
    | Action.enqueue r => [r]
    | Action.closeQueue => [closeRequest]

/-- Number of `close()` invocations in a trace. -/
def closeCallCount (tr : List Action) : Nat :=
  tr.count Action.closeQueue

/-- Number of close signals among queue items (requests with the close flag). -/
def closeSignalCount (items : List LiveRequest) : Nat :=
  items.countP fun r => r.close

/-- Number of queue items carrying text content. -/
def contentItemCount (items : List LiveRequest) : Nat :=
  items.countP fun r => r.content.isSome

/-- Number of queue items carrying a realtime blob. -/
def blobItemCount (items : List LiveRequest) : Nat :=
  items.countP fun r => r.blob.isSome

/-- One inbound WebSocket text frame as seen by the LiveRequest-validating
variants: the raw string together with the outcome of
`LiveRequest.model_validate_json(data)` (`some req` on success, `none` when
validation raises), or a `WebSocketDisconnect`. -/
inductive WsMsg where
  | msg (raw : String) (validated : Option LiveRequest)
  | disconnect
  deriving DecidableEq, Repr

/-- `consume_messages` of `src/demo/streaming_app.py` (identical in
`src/part2/streaming_app.py`): on successful validation `live_queue.send(req)`
then break if `req.close`; on validation failure enqueue the raw string as
text content; `WebSocketDisconnect` ends the loop; the `finally` block always
runs `live_queue.close()`.  An exhausted input list models the task being
cancelled (or the socket closing), which also reaches the `finally`. -/
def consumeStreamingTrace : List WsMsg → List Action
  | [] => [Action.closeQueue]
  | WsMsg.disconnect :: _ => [Action.closeQueue]
  | WsMsg.msg _ (some req) :: rest =>
      if req.close then [Action.enqueue req, Action.closeQueue]
      else Action.enqueue req :: consumeStreamingTrace rest
  | WsMsg.msg raw none :: rest =>
      Action.enqueue (LiveRequest.ofContent raw) :: consumeStreamingTrace rest

/-- `parse_message` of `src/demo/app/bidi_streaming.py`: validated close
request gives `(None, True)`; validated non-close request gives
`(None, False)`; validation failure falls back to `(data, False)`. -/
def parse_message (raw : String) (validated : Option LiveRequest) :
    Option String × Bool :=
  match validated with
  | some req => if req.close then (none, true) else (none, false)
  | none => (some raw, false)

/-- `consume_messages` of `src/demo/app/main.py`: runs `parse_message`,
breaks on a close signal, enqueues `session.send_text(text)` only when the
returned text is truthy (Python `if text:` is false for `None` and `""`);
the `finally` block always runs `session.close()`. -/
def consumeAppTrace : List WsMsg → List Action
  | [] => [Action.closeQueue]
  | WsMsg.disconnect :: _ => [Action.closeQueue]
  | WsMsg.msg raw v :: rest =>
      match parse_message raw v with
      | (_, true) => [Action.closeQueue]
      | (some t, false) =>
          if t = "" then consumeAppTrace rest
          else Action.enqueue (LiveRequest.ofContent t) :: consumeAppTrace rest
      | (none, false) => consumeAppTrace rest

/-- The base64 alphabet of `base64.b64decode`: ASCII code of a sextet
(`A-Z`, `a-z`, `0-9`, `+`, `/`). -/
def b64CharOf (s : Nat) : Nat :=
  if s < 26 then 65 + s
  else if s < 52 then 97 + (s - 26)
  else if s < 62 then 48 + (s - 52)
  else if s = 62 then 43
  else 47

/-- Inverse alphabet lookup: sextet value of an ASCII code, `none` for a
character outside the base64 alphabet. -/
def b64IndexOf (c : Nat) : Option Nat :=
  if 65 ≤ c ∧ c ≤ 90 then some (c - 65)
  else if 97 ≤ c ∧ c ≤ 122 then some (c - 97 + 26)
  else if 48 ≤ c ∧ c ≤ 57 then some (c - 48 + 52)
  else if c = 43 then some 62
  else if c = 47 then some 63
  else none

/-- Standard base64 encoding of a byte list (ASCII codes of the encoded text;
61 is `=` padding), as produced by `btoa` / `base64.b64encode` for the audio
payloads the bidi-demo client sends. -/
def b64encode : List Nat → List Nat
  | [] => []
  | [b1] => [b64CharOf (b1 / 4), b64CharOf (b1 % 4 * 16), 61, 61]
  | [b1, b2] =>
      [b64CharOf (b1 / 4), b64CharOf (b1 % 4 * 16 + b2 / 16),
       b64CharOf (b2 % 16 * 4), 61]
  | b1 :: b2 :: b3 :: rest =>
      b64CharOf (b1 / 4) :: b64CharOf (b1 % 4 * 16 + b2 / 16) ::
      b64CharOf (b2 % 16 * 4 + b3 / 64) :: b64CharOf (b3 % 64) ::
      b64encode rest

/-- `base64.b64decode` on ASCII codes: four-character groups, `=`-padded final
group; `none` models the `binascii.Error` raised on malformed input (the
Python default additionally discards non-alphabet characters first, which no
claim depends on). -/
def b64decode : List Nat → Option (List Nat)
  | [] => some []
  | [c1, c2, 61, 61] =>
      match b64IndexOf c1, b64IndexOf c2 with
      | some s1, some s2 => some [s1 * 4 + s2 / 16]
      | _, _ => none
  | [c1, c2, c3, 61] =>
      match b64IndexOf c1, b64IndexOf c2, b64IndexOf c3 with
      | some s1, some s2, some s3 =>
          some [s1 * 4 + s2 / 16, s2 % 16 * 16 + s3 / 4]
      | _, _, _ => none
  | c1 :: c2 :: c3 :: c4 :: rest =>
      match b64IndexOf c1, b64IndexOf c2, b64IndexOf c3, b64IndexOf c4,
            b64decode rest with
      | some s1, some s2, some s3, some s4, some tail =>
          some ((s1 * 4 + s2 / 16) :: (s2 % 16 * 16 + s3 / 4) ::
                (s3 % 4 * 64 + s4) :: tail)
      | _, _, _, _, _ => none
  | _ => none

/-- One inbound WebSocket text frame as seen by `upstream_task` of
`src/bidi-demo/app/main.py`: either the field view of a successfully
`json.loads`-parsed object (`type`, `data` as base64 ASCII codes,
`mime_type`, `text`, and a `close` field the code never reads), a frame
whose parse raised `json.JSONDecodeError`, or a `WebSocketDisconnect`. -/
inductive BidiMsg where
  | jsonMsg (type : Option String) (data : Option (List Nat))
      (mime_type : Option String) (text : Option String) (close : Option Bool)
  | notJson (raw : String)
  | disconnect
  deriving DecidableEq, Repr

/-- `upstream_task` of `src/bidi-demo/app/main.py`: `type == "audio"` decodes
`message["data"]` and enqueues a realtime blob with
`message.get("mime_type", "audio/pcm;rate=16000")`; `type == "text"` enqueues
`message["text"]` as content; any other parsed object is silently ignored;
a non-JSON frame is enqueued as plain text content.  The Bool result records
whether the task raised (a `KeyError` on a missing `data`/`text` field or a
`binascii.Error` on bad base64 — neither is caught), which aborts the loop. -/
def upstreamBidiTrace : List BidiMsg → List Action × Bool
  | [] => ([], false)
  | BidiMsg.disconnect :: _ => ([], false)
  | BidiMsg.notJson raw :: rest =>
      let p := upstreamBidiTrace rest
      (Action.enqueue (LiveRequest.ofContent raw) :: p.1, p.2)
  | BidiMsg.jsonMsg ty data mime text _ :: rest =>
      if ty = some "audio" then
        match data with
        | none => ([], true)
        | some d =>
            match b64decode d with
            | none => ([], true)
            | some bytes =>
                let p := upstreamBidiTrace rest
                (Action.enqueue
                  (LiveRequest.ofBlob (mime.getD "audio/pcm;rate=16000") bytes)
                  :: p.1, p.2)
      else if ty = some "text" then
        match text with
        | none => ([], true)
        | some t =>
            let p := upstreamBidiTrace rest
            (Action.enqueue (LiveRequest.ofContent t) :: p.1, p.2)
      else upstreamBidiTrace rest

/-- `websocket_endpoint` of `src/bidi-demo/app/main.py`: `asyncio.gather` of
the two tasks with `return_exceptions=True` (so an upstream exception is
collected, not propagated), then the `finally` block runs
`live_request_queue.close()` exactly once; `downstream_task` never touches
the queue. -/
def bidiEndpointTrace (msgs : List BidiMsg) : List Action :=
  (upstreamBidiTrace msgs).1 ++ [Action.closeQueue]

/-- One message written to the outbound transport by a downstream task:
either a serialized event (`event.model_dump_json(...)`) or the terminal
`json.dumps` of an object with a single error field. -/
inductive Wire where
  | eventMsg (json : String)
  | errorMsg (text : String)
  deriving DecidableEq, Repr

/-- The externally supplied event sequence consumed by a downstream task:
the serialized events it yields, then either normal completion
(`failure = none`) or an exception with the given message. -/
structure EventSource where
  events : List String
  failure : Option String
  deriving DecidableEq, Repr

/-- `forward_events` of `src/demo/streaming_app.py` (identical shape in
`src/part2/streaming_app.py` and in `forward_events` of
`src/demo/app/main.py`): forward each event as text; on any exception send
one final error message via `safe_ws_send` and end the task. -/
def forward_events (src : EventSource) : List Wire :=
  src.events.map Wire.eventMsg ++
    match src.failure with
    | some e => [Wire.errorMsg e]
    | none => []

/-- `downstream_task` of `src/bidi-demo/app/main.py`: forward each event as
text; the `except Exception` arm only logs (`logger.error`) and writes
nothing to the WebSocket before the task ends. -/
def downstreamBidi (src : EventSource) : List Wire :=
  src.events.map Wire.eventMsg

/-- Number of error messages among outbound wire messages. -/
def errorWireCount (ws : List Wire) : Nat :=
  ws.countP fun w =>
    match w with
    | Wire.errorMsg _ => true
    | Wire.eventMsg _ => false

end AdkBridge

namespace AdkBridge

/-- The `active_sse_sessions` registry of `src/demo/app/main.py` together
with the per-session queue each `StreamingSession` wraps: an association
list from session_id to the session's enqueued requests. -/
abbrev SseRegistry : Type := List (String × List LiveRequest)

/-- `active_sse_sessions.get(session_id)`. -/
def sseLookup (st : SseRegistry) (sid : String) : Option (List LiveRequest) :=
  match st with
  | [] => none
  | (k, q) :: rest => if k = sid then some q else sseLookup rest sid

/-- Replace the queue stored under a session id. -/
def sseUpdate (st : SseRegistry) (sid : String) (q : List LiveRequest) :
    SseRegistry :=
  match st with
  | [] => []
  | (k, q0) :: rest =>
      if k = sid then (k, q) :: rest else (k, q0) :: sseUpdate rest sid q

/-- JSON response value of the `/sse-send` and `/sse-close` POST handlers. -/
inductive SseResp where
  | statusSent (message : String)
  | statusCloseSent
  | errResp (message : String)
  deriving DecidableEq, Repr

/-- `sse_send_message` of `src/demo/app/main.py`: default session_id
"demo-session", default message ""; an empty message returns the
message-required error before any lookup; an unknown session id returns the
not-found error; otherwise `session.send_text(message)` enqueues content and
`{"status": "sent"}` is returned.  The whole body is wrapped in
`try/except`, so no exception escapes; the handler is total here. -/
def sse_send_message (st : SseRegistry) (session_id : Option String)
    (message : Option String) : SseResp × SseRegistry :=
  let sid := session_id.getD "demo-session"
  let msg := message.getD ""
  if msg = "" then (SseResp.errResp "Message is required", st)
  else
    match sseLookup st sid with
    | none => (SseResp.errResp "Session not found or not active", st)
    | some q =>
        (SseResp.statusSent msg,
         sseUpdate st sid (q ++ [LiveRequest.ofContent msg]))

/-- `sse_close_session` of `src/demo/app/main.py`: default session_id
"demo-session"; an unknown session id returns the not-found error; otherwise
`session.close()` enqueues the terminal close request and
`{"status": "close signal sent"}` is returned.  Wrapped in `try/except`, so
no exception escapes. -/
def sse_close_session (st : SseRegistry) (session_id : Option String) :
    SseResp × SseRegistry :=
  let sid := session_id.getD "demo-session"
  match sseLookup st sid with
  | none => (SseResp.errResp "Session not found or not active", st)
  | some q => (SseResp.statusCloseSent, sseUpdate st sid (q ++ [closeRequest]))

/-- The external session store keyed by (app_name, user_id, session_id).
Modelled from the spec: section 4.1 — `InMemorySessionService` is part of the
opaque SDK; the spec's contract is "ensure the external session store has a
record for (user_id, session_id) — creating it if absent". -/
abbrev SessionStore : Type := List (String × String × String)

/-- `get_session` membership test.  Modelled from the spec: the external
store returns a record exactly when one was created for the key. -/
def hasSession (st : SessionStore) (app u s : String) : Bool :=
  decide ((app, u, s) ∈ st)

/-- `create_session`.  Modelled from the spec: creating appends one record
for the key and touches nothing else. -/
def createSession (st : SessionStore) (app u s : String) : SessionStore :=
  st ++ [(app, u, s)]

/-- `get_or_create_session` of `src/demo/app/bidi_streaming.py` (identical
logic in `ensure_session` of `src/demo/streaming_app.py`): `get_session`,
and `create_session` only when nothing was found. -/
def get_or_create_session (app : String) (st : SessionStore) (u s : String) :
    SessionStore :=
  if hasSession st app u s then st else createSession st app u s

/-- The process environment `os.environ`, total over key strings with `none`
for an absent key. -/
abbrev Env : Type := String → Option String

/-- `os.environ[k] = v`. -/
def setEnv (env : Env) (k v : String) : Env :=
  fun k' => if k' = k then some v else env k'

/-- `os.environ.pop(k, None)`. -/
def popEnv (env : Env) (k : String) : Env :=
  fun k' => if k' = k then none else env k'

/-- Python truthiness of an `Optional[str]`: false for `None` and `""`. -/
def truthy (s : Option String) : Bool :=
  match s with
  | none => false
  | some v => v ≠ ""

/-- `_set_credentials` of `src/demo/app/main.py` (the same inline sequence
appears in `ws_handler` and `sse` of `src/demo/streaming_app.py`): records
each key's prior value in `old_env` just before overwriting it; the keys are
`GOOGLE_GENAI_USE_VERTEXAI` (when `use_vertexai` is given), then either
`GOOGLE_CLOUD_PROJECT` / `GOOGLE_CLOUD_LOCATION` (when `use_vertexai ==
"true"` and the field is truthy) or `GOOGLE_API_KEY` (otherwise, when
truthy).  Returns the new environment and `old_env` in insertion order. -/
def set_credentials (env : Env) (use_vertexai api_key gcp_project gcp_location :
    Option String) : Env × List (String × Option String) :=
  let st1 :=
    match use_vertexai with
    | some v =>
        (setEnv env "GOOGLE_GENAI_USE_VERTEXAI" v.toUpper,
         [("GOOGLE_GENAI_USE_VERTEXAI", env "GOOGLE_GENAI_USE_VERTEXAI")])
    | none => (env, [])
  if use_vertexai = some "true" then
    let st2 :=
      if truthy gcp_project then
        (setEnv st1.1 "GOOGLE_CLOUD_PROJECT" (gcp_project.getD ""),
         st1.2 ++ [("GOOGLE_CLOUD_PROJECT", st1.1 "GOOGLE_CLOUD_PROJECT")])
      else st1
    if truthy gcp_location then
      (setEnv st2.1 "GOOGLE_CLOUD_LOCATION" (gcp_location.getD ""),
       st2.2 ++ [("GOOGLE_CLOUD_LOCATION", st2.1 "GOOGLE_CLOUD_LOCATION")])
    else st2
  else
    if truthy api_key then
      (setEnv st1.1 "GOOGLE_API_KEY" (api_key.getD ""),
       st1.2 ++ [("GOOGLE_API_KEY", st1.1 "GOOGLE_API_KEY")])
    else st1

/-- One iteration of the restore loop: a `None` saved value is popped, any
other saved value is written back. -/
def restoreOne (env : Env) (kv : String × Option String) : Env :=
  match kv.2 with
  | none => popEnv env kv.1
  | some v => setEnv env kv.1 v

/-- `_restore_credentials` of `src/demo/app/main.py` (the same loop appears
in the `finally` blocks of `src/demo/streaming_app.py`): iterate over
`old_env` restoring each key. -/
def restore_credentials (env : Env) (old : List (String × Option String)) :
    Env :=
  old.foldl restoreOne env

/-- The SDK's LiveRequestQueue as seen by the consumer.  Modelled from the
spec: section 4.2 describes an ordered unbounded channel; producers push at
the back and the consumer drains the front, so the structure is a classic
two-list queue. -/
structure BatchQueue where
  front : List LiveRequest
  back : List LiveRequest

/-- Producer-side `send`: push on the back stack. -/
def BatchQueue.send (q : BatchQueue) (r : LiveRequest) : BatchQueue :=
  ⟨q.front, r :: q.back⟩

/-- Send a whole list of requests in order. -/
def BatchQueue.sendAll (q : BatchQueue) (rs : List LiveRequest) : BatchQueue :=
  rs.foldl BatchQueue.send q

/-- The sequence the consumer observes when draining the queue to the end. -/
def BatchQueue.observed (q : BatchQueue) : List LiveRequest :=
  q.front ++ q.back.reverse

/-- A frame is an ordinary (non-close, non-disconnect) inbound message for
the LiveRequest-validating variants: either it fails validation or it
validates with the close flag unset. -/
def WsMsg.nonClose : WsMsg → Bool
  | WsMsg.msg _ (some req) => !req.close
  | WsMsg.msg _ none => true
  | WsMsg.disconnect => false

/-- The single queue entry `consume_messages` of `src/demo/streaming_app.py`
produces for an ordinary message: the validated request itself, or the raw
string as text content. -/
def streamEntryOf : WsMsg → LiveRequest
  | WsMsg.msg _ (some req) => req
  | WsMsg.msg raw none => LiveRequest.ofContent raw
  | WsMsg.disconnect => closeRequest

/-- The queue entries (zero or one) `upstream_task` of
`src/bidi-demo/app/main.py` produces for one frame that does not raise. -/
def bidiEntryOf : BidiMsg → List LiveRequest
  | BidiMsg.notJson raw => [LiveRequest.ofContent raw]
  | BidiMsg.disconnect => []
  | BidiMsg.jsonMsg ty data mime text _ =>
      if ty = some "audio" then
        match data.bind b64decode with
        | some bytes =>
            [LiveRequest.ofBlob (mime.getD "audio/pcm;rate=16000") bytes]
        | none => []
      else if ty = some "text" then
        match text with
        | some t => [LiveRequest.ofContent t]
        | none => []
      else []

/-- A frame `upstream_task` of `src/bidi-demo/app/main.py` handles without
raising and without ending the loop: anything except a disconnect, an audio
frame with a missing or undecodable `data` field, and a text frame with a
missing `text` field. -/
def BidiMsg.ok : BidiMsg → Bool
  | BidiMsg.notJson _ => true
  | BidiMsg.disconnect => false
  | BidiMsg.jsonMsg ty data _ text _ =>
      if ty = some "audio" then (data.bind b64decode).isSome
      else if ty = some "text" then text.isSome
      else true

theorem BatchQueue.observed_sendAll (q : BatchQueue) (rs : List LiveRequest) :
    (q.sendAll rs).observed = q.observed ++ rs := by
  induction rs generalizing q with
  | nil => simp [BatchQueue.sendAll]
  | cons r rest ih =>
      have hstep : (q.send r).observed = q.observed ++ [r] := by
        simp [BatchQueue.send, BatchQueue.observed]
      calc (q.sendAll (r :: rest)).observed
          = ((q.send r).sendAll rest).observed := by
            simp [BatchQueue.sendAll]
        _ = (q.send r).observed ++ rest := ih (q.send r)
        _ = q.observed ++ r :: rest := by simp [hstep]

theorem b64IndexOf_b64CharOf : ∀ s : Nat, s < 64 →
    b64IndexOf (b64CharOf s) = some s := by
  decide

theorem b64CharOf_ne_pad : ∀ s : Nat, s < 64 → b64CharOf s ≠ 61 := by
  decide

theorem b64decode_b64encode : ∀ bs : List Nat, (∀ b ∈ bs, b < 256) →
    b64decode (b64encode bs) = some bs := by
  intro bs
  induction bs using b64encode.induct with
  | case1 => intro _; rfl
  | case2 b1 =>
      intro h
      have hb : b1 < 256 := h b1 (by simp)
      have e1 : b64IndexOf (b64CharOf (b1 / 4)) = some (b1 / 4) :=
        b64IndexOf_b64CharOf _ (by omega)
      have e2 : b64IndexOf (b64CharOf (b1 % 4 * 16)) = some (b1 % 4 * 16) :=
        b64IndexOf_b64CharOf _ (by omega)
      simp [b64encode, b64decode, e1, e2]
      omega
  | case3 b1 b2 =>
      intro h
      have hb1 : b1 < 256 := h b1 (by simp)
      have hb2 : b2 < 256 := h b2 (by simp)
      have e1 : b64IndexOf (b64CharOf (b1 / 4)) = some (b1 / 4) :=
        b64IndexOf_b64CharOf _ (by omega)
      have e2 : b64IndexOf (b64CharOf (b1 % 4 * 16 + b2 / 16)) =
          some (b1 % 4 * 16 + b2 / 16) :=
        b64IndexOf_b64CharOf _ (by omega)
      have e3 : b64IndexOf (b64CharOf (b2 % 16 * 4)) = some (b2 % 16 * 4) :=
        b64IndexOf_b64CharOf _ (by omega)
      have n3 : b64CharOf (b2 % 16 * 4) ≠ 61 := b64CharOf_ne_pad _ (by omega)
      simp [b64encode, b64decode, e1, e2, e3, n3]
      omega
  | case4 b1 b2 b3 rest ih =>
      intro h
      have hb1 : b1 < 256 := h b1 (by simp)
      have hb2 : b2 < 256 := h b2 (by simp)
      have hb3 : b3 < 256 := h b3 (by simp)
      have hrest : ∀ b ∈ rest, b < 256 := fun b hb => h b (by simp [hb])
      have e1 : b64IndexOf (b64CharOf (b1 / 4)) = some (b1 / 4) :=
        b64IndexOf_b64CharOf _ (by omega)
      have e2 : b64IndexOf (b64CharOf (b1 % 4 * 16 + b2 / 16)) =
          some (b1 % 4 * 16 + b2 / 16) :=
        b64IndexOf_b64CharOf _ (by omega)
      have e3 : b64IndexOf (b64CharOf (b2 % 16 * 4 + b3 / 64)) =
          some (b2 % 16 * 4 + b3 / 64) :=
        b64IndexOf_b64CharOf _ (by omega)
      have e4 : b64IndexOf (b64CharOf (b3 % 64)) = some (b3 % 64) :=
        b64IndexOf_b64CharOf _ (by omega)
      have n3 : b64CharOf (b2 % 16 * 4 + b3 / 64) ≠ 61 :=
        b64CharOf_ne_pad _ (by omega)
      have n4 : b64CharOf (b3 % 64) ≠ 61 := b64CharOf_ne_pad _ (by omega)
      simp [b64encode, b64decode, e1, e2, e3, e4, n3, n4, ih hrest]
      omega


theorem queueItemsOf_nil : queueItemsOf [] = [] := rfl

theorem queueItemsOf_enqueue (r : LiveRequest) (tr : List Action) :
    queueItemsOf (Action.enqueue r :: tr) = r :: queueItemsOf tr := by
  simp [queueItemsOf]

theorem queueItemsOf_close (tr : List Action) :
    queueItemsOf (Action.closeQueue :: tr) = closeRequest :: queueItemsOf tr := by
  simp [queueItemsOf]

theorem consumeStreaming_items : ∀ msgs : List WsMsg,
    (∀ m ∈ msgs, m.nonClose = true) →
    queueItemsOf (consumeStreamingTrace msgs) =
      msgs.map streamEntryOf ++ [closeRequest] := by
  intro msgs
  induction msgs with
  | nil => intro _; rfl
  | cons m rest ih =>
      intro h
      have hm := h m (by simp)
      have hrest : ∀ x ∈ rest, x.nonClose = true := fun x hx => h x (by simp [hx])
      cases m with
      | disconnect => simp [WsMsg.nonClose] at hm
      | msg raw v =>
          cases v with
          | none =>
              simp [consumeStreamingTrace, queueItemsOf_enqueue, streamEntryOf,
                    ih hrest]
          | some req =>
              have hc : req.close = false := by
                simpa [WsMsg.nonClose] using hm
              simp [consumeStreamingTrace, hc, queueItemsOf_enqueue,
                    streamEntryOf, ih hrest]

theorem upstreamBidi_items : ∀ msgs : List BidiMsg,
    (∀ m ∈ msgs, m.ok = true) →
    queueItemsOf (upstreamBidiTrace msgs).1 = msgs.flatMap bidiEntryOf := by
  intro msgs
  induction msgs with
  | nil => intro _; rfl
  | cons m rest ih =>
      intro h
      have hm := h m (by simp)
      have hrest : ∀ x ∈ rest, x.ok = true := fun x hx => h x (by simp [hx])
      cases m with
      | disconnect => simp [BidiMsg.ok] at hm
      | notJson raw =>
          simp [upstreamBidiTrace, queueItemsOf_enqueue, bidiEntryOf, ih hrest]
      | jsonMsg ty data mime text cl =>
          by_cases hty : ty = some "audio"
          · have hsome : (data.bind b64decode).isSome := by
              simpa [BidiMsg.ok, hty] using hm
            cases data with
            | none => simp at hsome
            | some d =>
                obtain ⟨bytes, hb⟩ := Option.isSome_iff_exists.mp
                  (by simpa using hsome)
                simp [upstreamBidiTrace, hty, hb, queueItemsOf_enqueue,
                      bidiEntryOf, ih hrest]
          · by_cases htx : ty = some "text"
            · have hsome : text.isSome := by
                simpa [BidiMsg.ok, hty, htx] using hm
              obtain ⟨t, ht⟩ := Option.isSome_iff_exists.mp hsome
              simp [upstreamBidiTrace, hty, htx, ht, queueItemsOf_enqueue,
                    bidiEntryOf, ih hrest]
            · simp [upstreamBidiTrace, hty, htx, bidiEntryOf, ih hrest]

theorem bidiEntryOf_length_le : ∀ m : BidiMsg, (bidiEntryOf m).length ≤ 1 := by
  intro m
  cases m with
  | notJson raw => simp [bidiEntryOf]
  | disconnect => simp [bidiEntryOf]
  | jsonMsg ty data mime text cl =>
      simp only [bidiEntryOf]
      by_cases hty : ty = some "audio"
      · simp only [hty, if_pos rfl]
        cases data.bind b64decode <;> simp
      · by_cases htx : ty = some "text"
        · simp only [hty, htx, if_neg, if_pos rfl]
          cases text <;> simp
        · simp [hty, htx]

theorem closeCallCount_consumeStreaming :
    ∀ msgs : List WsMsg, closeCallCount (consumeStreamingTrace msgs) = 1 := by
  intro msgs
  induction msgs with
  | nil => rfl
  | cons m rest ih =>
      cases m with
      | disconnect => rfl
      | msg raw v =>
          cases v with
          | none =>
              simp [consumeStreamingTrace, closeCallCount, List.count_cons]
                at ih ⊢
              exact ih
          | some req =>
              by_cases hc : req.close
              · simp [consumeStreamingTrace, hc, closeCallCount,
                      List.count_cons]
              · simp [consumeStreamingTrace, hc, closeCallCount,
                      List.count_cons] at ih ⊢
                exact ih

theorem closeCallCount_consumeApp :
    ∀ msgs : List WsMsg, closeCallCount (consumeAppTrace msgs) = 1 := by
  intro msgs
  induction msgs with
  | nil => rfl
  | cons m rest ih =>
      cases m with
      | disconnect => rfl
      | msg raw v =>
          cases v with
          | none =>
              by_cases hr : raw = ""
              · simpa [consumeAppTrace, parse_message, hr] using ih
              · simp [consumeAppTrace, parse_message, hr, closeCallCount,
                      List.count_cons] at ih ⊢
                exact ih
          | some req =>
              by_cases hc : req.close
              · simp [consumeAppTrace, parse_message, hc, closeCallCount]
              · simpa [consumeAppTrace, parse_message, hc] using ih

theorem closeCallCount_upstreamBidi :
    ∀ msgs : List BidiMsg, closeCallCount (upstreamBidiTrace msgs).1 = 0 := by
  intro msgs
  induction msgs with
  | nil => rfl
  | cons m rest ih =>
      cases m with
      | disconnect => rfl
      | notJson raw =>
          simp [upstreamBidiTrace, closeCallCount, List.count_cons] at ih ⊢
          exact ih
      | jsonMsg ty data mime text cl =>
          by_cases hty : ty = some "audio"
          · cases data with
            | none => simp [upstreamBidiTrace, hty, closeCallCount]
            | some d =>
                cases hb : b64decode d with
                | none => simp [upstreamBidiTrace, hty, hb, closeCallCount]
                | some bytes =>
                    simp [upstreamBidiTrace, hty, hb, closeCallCount,
                          List.count_cons] at ih ⊢
                    exact ih
          · by_cases htx : ty = some "text"
            · cases text with
              | none => simp [upstreamBidiTrace, hty, htx, closeCallCount]
              | some t =>
                  simp [upstreamBidiTrace, hty, htx, closeCallCount,
                        List.count_cons] at ih ⊢
                  exact ih
            · simpa [upstreamBidiTrace, hty, htx] using ih

theorem errorWireCount_events (l : List String) :
    errorWireCount (l.map Wire.eventMsg) = 0 := by
  simp only [errorWireCount, List.countP_eq_zero]
  intro w hw
  obtain ⟨j, _, rfl⟩ := List.mem_map.mp hw
  simp

theorem restoreOne_self (env : Env) (k : String) (v : Option String) :
    restoreOne env (k, v) k = v := by
  cases v <;> simp [restoreOne, popEnv, setEnv]

theorem restoreOne_other (env : Env) (k k2 : String) (v : Option String)
    (h : k2 ≠ k) : restoreOne env (k, v) k2 = env k2 := by
  cases v <;> simp [restoreOne, popEnv, setEnv, h]


/-- C1, claim as frozen, refuted: the claim requires one queue entry per
non-close inbound message.  In `upstream_task` of `src/bidi-demo/app/main.py`
a JSON frame whose `type` is neither "audio" nor "text" (here
`{"type": "status"}`, a non-close message the task handles without raising)
is silently dropped: one message arrives and zero entries are produced. -/
theorem claim_C1_counterexample :
    ([BidiMsg.jsonMsg (some "status") none none none none] :
      List BidiMsg).length = 1 ∧
    (BidiMsg.jsonMsg (some "status") none none none none).ok = true ∧
    queueItemsOf (upstreamBidiTrace
      [BidiMsg.jsonMsg (some "status") none none none none]).1 = [] := by
  refine ⟨rfl, by decide, by decide⟩

/-- C1 (amended): entries reach the Request Queue in arrival order with no
reordering and no duplication, and the consumer observes them in that order
(FIFO); each non-close message produces AT MOST one entry — exactly one per
message in the `consume_messages` variant of `src/demo/streaming_app.py`,
while the `upstream_task` variant of `src/bidi-demo/app/main.py` produces at
most one (unrecognized JSON frames produce none). -/
theorem claim_C1_main :
    (∀ msgs : List WsMsg, (∀ m ∈ msgs, m.nonClose = true) →
      queueItemsOf (consumeStreamingTrace msgs) =
        msgs.map streamEntryOf ++ [closeRequest] ∧
      (BatchQueue.sendAll ⟨[], []⟩
        (queueItemsOf (consumeStreamingTrace msgs))).observed =
        queueItemsOf (consumeStreamingTrace msgs)) ∧
    (∀ msgs : List BidiMsg, (∀ m ∈ msgs, m.ok = true) →
      queueItemsOf (upstreamBidiTrace msgs).1 = msgs.flatMap bidiEntryOf ∧
      ∀ m ∈ msgs, (bidiEntryOf m).length ≤ 1) := by
  constructor
  · intro msgs h
    refine ⟨consumeStreaming_items msgs h, ?_⟩
    simpa [BatchQueue.observed] using
      BatchQueue.observed_sendAll ⟨[], []⟩
        (queueItemsOf (consumeStreamingTrace msgs))
  · intro msgs h
    exact ⟨upstreamBidi_items msgs h, fun m _ => bidiEntryOf_length_le m⟩

/-- C1 witness: two plain-text messages yield exactly their two entries in
order, and one non-JSON bidi frame yields its single entry. -/
theorem claim_C1_witness :
    queueItemsOf (consumeStreamingTrace
      [WsMsg.msg "a" none, WsMsg.msg "b" none]) =
      [WsMsg.msg "a" none, WsMsg.msg "b" none].map streamEntryOf ++
        [closeRequest] ∧
    queueItemsOf (upstreamBidiTrace [BidiMsg.notJson "hi"]).1 =
      [BidiMsg.notJson "hi"].flatMap bidiEntryOf :=
  ⟨(claim_C1_main.1 [WsMsg.msg "a" none, WsMsg.msg "b" none]
      (by decide)).1,
   (claim_C1_main.2 [BidiMsg.notJson "hi"] (by decide)).1⟩

/-- C2, claim as frozen, refuted: the claim forbids any path from closing
the queue or enqueueing a close signal more than once.  On the graceful
close path of `consume_messages` in `src/demo/streaming_app.py` the
validated close request is enqueued by `live_queue.send(req)` and the
`finally` block then runs `live_queue.close()`, so the queue receives two
close signals. -/
theorem claim_C2_counterexample :
    closeSignalCount (queueItemsOf (consumeStreamingTrace
      [WsMsg.msg "close-control" (some closeRequest)])) = 2 ∧
    closeCallCount (consumeStreamingTrace
      [WsMsg.msg "close-control" (some closeRequest)]) = 1 := by
  refine ⟨by decide, by decide⟩

/-- C2 (amended): on every termination path of every bridge variant the
Request Queue's `close()` itself is invoked exactly once before the handler
returns; on the graceful close-control path of the LiveRequest-forwarding
variants the close signal nevertheless appears twice among the queue items
(once from `send(req)`, once from `close()`). -/
theorem claim_C2_main :
    (∀ msgs : List WsMsg, closeCallCount (consumeStreamingTrace msgs) = 1) ∧
    (∀ msgs : List WsMsg, closeCallCount (consumeAppTrace msgs) = 1) ∧
    (∀ msgs : List BidiMsg, closeCallCount (bidiEndpointTrace msgs) = 1) := by
  refine ⟨closeCallCount_consumeStreaming, closeCallCount_consumeApp, ?_⟩
  intro msgs
  have h0 := closeCallCount_upstreamBidi msgs
  simp only [closeCallCount] at h0 ⊢
  simp [bidiEndpointTrace, List.count_append, h0]

/-- C3, claim as frozen, refuted: the claim requires every bridge variant to
stop reading once a parsed inbound message declares a close flag.
`upstream_task` of `src/bidi-demo/app/main.py` never inspects a close flag:
after a first-message `{"close": true}` frame it keeps reading, and the next
plain-text frame still produces a TextContent entry in the queue. -/
theorem claim_C3_counterexample :
    queueItemsOf (upstreamBidiTrace
      [BidiMsg.jsonMsg none none none none (some true),
       BidiMsg.notJson "hello"]).1 = [LiveRequest.ofContent "hello"] ∧
    contentItemCount (queueItemsOf (upstreamBidiTrace
      [BidiMsg.jsonMsg none none none none (some true),
       BidiMsg.notJson "hello"]).1) = 1 := by
  refine ⟨by decide, by decide⟩

/-- C3 (amended): in the close-flag-aware variants — `consume_messages` of
`src/demo/streaming_app.py` and of `src/demo/app/main.py` — a first inbound
message that validates as a pure close request stops reading regardless of
later messages, zero TextContent and zero RealtimeBlob entries reach the
queue, and `close()` runs exactly once (the LiveRequest-forwarding variant
additionally forwards the close request itself); the bidi-demo variant has
no close handling at all. -/
theorem claim_C3_main :
    ∀ (raw : String) (req : LiveRequest) (rest : List WsMsg),
      req.close = true → req.content = none → req.blob = none →
      (consumeStreamingTrace (WsMsg.msg raw (some req) :: rest) =
          [Action.enqueue req, Action.closeQueue] ∧
        contentItemCount (queueItemsOf (consumeStreamingTrace
          (WsMsg.msg raw (some req) :: rest))) = 0 ∧
        blobItemCount (queueItemsOf (consumeStreamingTrace
          (WsMsg.msg raw (some req) :: rest))) = 0 ∧
        closeCallCount (consumeStreamingTrace
          (WsMsg.msg raw (some req) :: rest)) = 1) ∧
      (consumeAppTrace (WsMsg.msg raw (some req) :: rest) =
          [Action.closeQueue] ∧
        contentItemCount (queueItemsOf (consumeAppTrace
          (WsMsg.msg raw (some req) :: rest))) = 0 ∧
        blobItemCount (queueItemsOf (consumeAppTrace
          (WsMsg.msg raw (some req) :: rest))) = 0 ∧
        closeCallCount (consumeAppTrace
          (WsMsg.msg raw (some req) :: rest)) = 1) := by
  intro raw req rest h1 h2 h3
  have e1 : consumeStreamingTrace (WsMsg.msg raw (some req) :: rest) =
      [Action.enqueue req, Action.closeQueue] := by
    simp [consumeStreamingTrace, h1]
  have e2 : consumeAppTrace (WsMsg.msg raw (some req) :: rest) =
      [Action.closeQueue] := by
    simp [consumeAppTrace, parse_message, h1]
  refine ⟨⟨e1, ?_, ?_, ?_⟩, e2, ?_, ?_, ?_⟩ <;>
    simp [e1, e2, queueItemsOf, contentItemCount, blobItemCount,
          closeCallCount, closeRequest, h2, h3, List.countP_cons,
          List.count_cons]

/-- C3 witness: a concrete pure close request as the only inbound
message. -/
theorem claim_C3_witness :
    consumeStreamingTrace [WsMsg.msg "c" (some closeRequest)] =
      [Action.enqueue closeRequest, Action.closeQueue] ∧
    consumeAppTrace [WsMsg.msg "c" (some closeRequest)] =
      [Action.closeQueue] :=
  ⟨((claim_C3_main "c" closeRequest [] rfl rfl rfl).1).1,
   ((claim_C3_main "c" closeRequest [] rfl rfl rfl).2).1⟩


/-- C4, claim as frozen, refuted: the claim requires every bridge variant to
write exactly one terminal error message when the event source raises.
`downstream_task` of `src/bidi-demo/app/main.py` catches the exception but
only logs it: with one event delivered and then a failure, zero error
messages are written to the transport. -/
theorem claim_C4_counterexample :
    errorWireCount (downstreamBidi ⟨["e1"], some "boom"⟩) = 0 := by
  decide

/-- C4 (amended): in the `forward_events` variants (`src/demo/streaming_app.py`,
`src/part2/streaming_app.py`, `src/demo/app/main.py`) an event-source
exception produces exactly one terminal error message, written after all
forwarded events with nothing after it, and the task ends without the
exception escaping; the `downstream_task` variant of
`src/bidi-demo/app/main.py` ends without writing any error message. -/
theorem claim_C4_main :
    (∀ (src : EventSource) (msg : String), src.failure = some msg →
      forward_events src =
        src.events.map Wire.eventMsg ++ [Wire.errorMsg msg] ∧
      errorWireCount (forward_events src) = 1) ∧
    (∀ src : EventSource,
      downstreamBidi src = src.events.map Wire.eventMsg ∧
      errorWireCount (downstreamBidi src) = 0) := by
  constructor
  · intro src msg h
    have e : forward_events src =
        src.events.map Wire.eventMsg ++ [Wire.errorMsg msg] := by
      simp [forward_events, h]
    refine ⟨e, ?_⟩
    have h0 := errorWireCount_events src.events
    simp only [errorWireCount] at h0 ⊢
    simp [e, List.countP_append, h0]
  · intro src
    exact ⟨rfl, errorWireCount_events src.events⟩

/-- C4 witness: one forwarded event, then a failure with message "boom". -/
theorem claim_C4_witness :
    forward_events ⟨["a"], some "boom"⟩ =
      ["a"].map Wire.eventMsg ++ [Wire.errorMsg "boom"] ∧
    errorWireCount (forward_events ⟨["a"], some "boom"⟩) = 1 :=
  claim_C4_main.1 ⟨["a"], some "boom"⟩ "boom" rfl

/-- C5, claim as frozen, refuted: the claim says a malformed inbound message
always produces exactly one TextContent entry.  The empty string fails
LiveRequest validation, so `parse_message` returns `("", False)`, and
`consume_messages` of `src/demo/app/main.py` then skips the enqueue because
Python `if text:` is false for `""`: zero TextContent entries are produced
(still with no error). -/
theorem claim_C5_counterexample :
    parse_message "" none = (some "", false) ∧
    queueItemsOf (consumeAppTrace [WsMsg.msg "" none]) = [closeRequest] ∧
    contentItemCount
      (queueItemsOf (consumeAppTrace [WsMsg.msg "" none])) = 0 := by
  refine ⟨rfl, by decide, by decide⟩

/-- C5 (amended): a message that fails structured parsing is never an error
and produces at most one TextContent entry holding the raw string — exactly
one in `consume_messages` of `src/demo/streaming_app.py` and in
`upstream_task` of `src/bidi-demo/app/main.py` (even for the empty string),
and exactly one in the `parse_message` variant of `src/demo/app/main.py`
for nonempty strings, while the empty malformed string is silently
dropped there. -/
theorem claim_C5_main :
    (∀ (raw : String) (rest : List WsMsg),
      consumeStreamingTrace (WsMsg.msg raw none :: rest) =
        Action.enqueue (LiveRequest.ofContent raw) ::
          consumeStreamingTrace rest) ∧
    (∀ (raw : String) (rest : List BidiMsg),
      upstreamBidiTrace (BidiMsg.notJson raw :: rest) =
        (Action.enqueue (LiveRequest.ofContent raw) ::
          (upstreamBidiTrace rest).1, (upstreamBidiTrace rest).2)) ∧
    (∀ raw : String, parse_message raw none = (some raw, false)) ∧
    (∀ (raw : String) (rest : List WsMsg), raw ≠ "" →
      consumeAppTrace (WsMsg.msg raw none :: rest) =
        Action.enqueue (LiveRequest.ofContent raw) ::
          consumeAppTrace rest) ∧
    (∀ rest : List WsMsg,
      consumeAppTrace (WsMsg.msg "" none :: rest) = consumeAppTrace rest) := by
  refine ⟨fun raw rest => by simp [consumeStreamingTrace],
          fun raw rest => by simp [upstreamBidiTrace],
          fun raw => rfl,
          fun raw rest h => by simp [consumeAppTrace, parse_message, h],
          fun rest => by simp [consumeAppTrace, parse_message]⟩

/-- C5 witness: the nonempty malformed message "hello" produces its single
TextContent entry in the parse_message variant. -/
theorem claim_C5_witness :
    consumeAppTrace [WsMsg.msg "hello" none] =
      Action.enqueue (LiveRequest.ofContent "hello") :: consumeAppTrace [] :=
  claim_C5_main.2.2.2.1 "hello" [] (by decide)

/-- C6: an inbound JSON audio message makes `upstream_task` of
`src/bidi-demo/app/main.py` enqueue exactly one RealtimeBlob whose
mime_type is the message's (defaulting to "audio/pcm;rate=16000" when
absent) and whose bytes are the base64-decoded `data` payload; decoding
inverts encoding, so the encoding of 4 bytes yields exactly those 4
bytes. -/
theorem claim_C6_main :
    (∀ (d bytes : List Nat) (m : Option String) (rest : List BidiMsg),
      b64decode d = some bytes →
      upstreamBidiTrace
        (BidiMsg.jsonMsg (some "audio") (some d) m none none :: rest) =
        (Action.enqueue
          (LiveRequest.ofBlob (m.getD "audio/pcm;rate=16000") bytes) ::
          (upstreamBidiTrace rest).1, (upstreamBidiTrace rest).2)) ∧
    (∀ bs : List Nat, (∀ b ∈ bs, b < 256) →
      b64decode (b64encode bs) = some bs) := by
  constructor
  · intro d bytes m rest h
    simp [upstreamBidiTrace, h]
  · exact b64decode_b64encode

/-- C6 witness: concrete 4-byte payloads, one with an explicit mime type
and one relying on the default. -/
theorem claim_C6_witness :
    upstreamBidiTrace [BidiMsg.jsonMsg (some "audio")
        (some (b64encode [0, 1, 2, 3])) (some "audio/pcm;rate=16000")
        none none] =
      ([Action.enqueue (LiveRequest.ofBlob "audio/pcm;rate=16000"
        [0, 1, 2, 3])], false) ∧
    upstreamBidiTrace [BidiMsg.jsonMsg (some "audio")
        (some (b64encode [9, 8, 7, 6])) none none none] =
      ([Action.enqueue (LiveRequest.ofBlob "audio/pcm;rate=16000"
        [9, 8, 7, 6])], false) := by
  constructor
  · have h := claim_C6_main.1 (b64encode [0, 1, 2, 3]) [0, 1, 2, 3]
      (some "audio/pcm;rate=16000") []
      (claim_C6_main.2 [0, 1, 2, 3] (by decide))
    simpa [upstreamBidiTrace] using h
  · have h := claim_C6_main.1 (b64encode [9, 8, 7, 6]) [9, 8, 7, 6]
      none [] (claim_C6_main.2 [9, 8, 7, 6] (by decide))
    simpa [upstreamBidiTrace] using h


/-- C7, claim as frozen, refuted: the claim says every sse-send or sse-close
call with an unknown session_id returns a not-found error, but
`sse_send_message` of `src/demo/app/main.py` checks the message field first:
a send call naming the unknown session "ghost" with no message returns the
message-required error, not the not-found error (still with no state
mutation and no escaping exception). -/
theorem claim_C7_counterexample :
    sse_send_message [] (some "ghost") none =
      (SseResp.errResp "Message is required", []) ∧
    SseResp.errResp "Message is required" ≠
      SseResp.errResp "Session not found or not active" := by
  refine ⟨by decide, by decide⟩

/-- C7 (amended): an sse-close call, or an sse-send call carrying a nonempty
message, whose session_id has no active session returns the not-found error
value with the registry (and every session's queue) unchanged; an sse-send
call without a message returns the message-required error first, likewise
without mutation; both handlers are total, so no exception escapes. -/
theorem claim_C7_main :
    (∀ (st : SseRegistry) (sid msg : Option String),
      msg.getD "" ≠ "" → sseLookup st (sid.getD "demo-session") = none →
      sse_send_message st sid msg =
        (SseResp.errResp "Session not found or not active", st)) ∧
    (∀ (st : SseRegistry) (sid : Option String),
      sseLookup st (sid.getD "demo-session") = none →
      sse_close_session st sid =
        (SseResp.errResp "Session not found or not active", st)) ∧
    (∀ (st : SseRegistry) (sid msg : Option String), msg.getD "" = "" →
      sse_send_message st sid msg =
        (SseResp.errResp "Message is required", st)) := by
  refine ⟨?_, ?_, ?_⟩
  · intro st sid msg h1 h2
    simp [sse_send_message, h1, h2]
  · intro st sid h
    simp [sse_close_session, h]
  · intro st sid msg h
    simp [sse_send_message, h]

/-- C7 witness: a registry holding only session "other"; calls referencing
the absent session "ghost". -/
theorem claim_C7_witness :
    sse_send_message [("other", [])] (some "ghost") (some "hi") =
      (SseResp.errResp "Session not found or not active", [("other", [])]) ∧
    sse_close_session [("other", [])] (some "ghost") =
      (SseResp.errResp "Session not found or not active", [("other", [])]) :=
  ⟨claim_C7_main.1 [("other", [])] (some "ghost") (some "hi")
      (by decide) (by decide),
   claim_C7_main.2.1 [("other", [])] (some "ghost") (by decide)⟩

/-- C8: `get_or_create_session` of `src/demo/app/bidi_streaming.py` (same
logic as `ensure_session` of `src/demo/streaming_app.py`) is an idempotent
get-or-create on the external session store: after one call the store has a
record for the key, a second call leaves the store unchanged, and the call
either leaves the store untouched or appends exactly the one new record. -/
theorem claim_C8_main :
    ∀ (app : String) (st : SessionStore) (u s : String),
      hasSession (get_or_create_session app st u s) app u s = true ∧
      get_or_create_session app (get_or_create_session app st u s) u s =
        get_or_create_session app st u s ∧
      (get_or_create_session app st u s = st ∨
        get_or_create_session app st u s = st ++ [(app, u, s)]) := by
  intro app st u s
  by_cases h : hasSession st app u s
  · simp [get_or_create_session, h]
  · have h2 : hasSession (st ++ [(app, u, s)]) app u s = true := by
      simp [hasSession]
    simp [get_or_create_session, h, h2, createSession]

/-- C10: `parse_message` of `src/demo/app/bidi_streaming.py` silently
discards validated non-close requests: a validated request returns
`(None, close-flag)`, only validation failures return the raw text, and in
`consume_messages` of `src/demo/app/main.py` a validated non-close request
therefore produces no queue action at all — not content, not plain text,
not an error. -/
theorem claim_C10_main :
    (∀ (raw : String) (req : LiveRequest),
      parse_message raw (some req) = (none, req.close)) ∧
    (∀ raw : String, parse_message raw none = (some raw, false)) ∧
    (∀ (raw : String) (req : LiveRequest) (rest : List WsMsg),
      req.close = false →
      consumeAppTrace (WsMsg.msg raw (some req) :: rest) =
        consumeAppTrace rest) := by
  refine ⟨?_, fun raw => rfl, ?_⟩
  · intro raw req
    by_cases h : req.close <;> simp [parse_message, h]
  · intro raw req rest h
    simp [consumeAppTrace, parse_message, h]

/-- C10 witness: a validated non-close request (content-only) contributes
nothing to the trace. -/
theorem claim_C10_witness :
    consumeAppTrace [WsMsg.msg "x" (some (LiveRequest.ofContent "y"))] =
      consumeAppTrace [] :=
  claim_C10_main.2.2 "x" (LiveRequest.ofContent "y") [] rfl


theorem restore_save1 (env : Env) (k1 v1 : String) :
    restore_credentials (setEnv env k1 v1) [(k1, env k1)] = env := by
  funext k
  by_cases h : k = k1
  · subst h
    simp [restore_credentials, restoreOne_self]
  · simp [restore_credentials, restoreOne_other, setEnv, h]

theorem restore_save2 (env : Env) (k1 k2 v1 v2 : String) (h21 : k2 ≠ k1) :
    restore_credentials (setEnv (setEnv env k1 v1) k2 v2)
      [(k1, env k1), (k2, setEnv env k1 v1 k2)] = env := by
  have hs2 : setEnv env k1 v1 k2 = env k2 := by simp [setEnv, h21]
  funext k
  by_cases hk2 : k = k2
  · subst hk2
    simp [restore_credentials, restoreOne_self, hs2]
  · by_cases hk1 : k = k1
    · subst hk1
      simp [restore_credentials, restoreOne_other, restoreOne_self, hk2]
    · simp [restore_credentials, restoreOne_other, setEnv, hk1, hk2]

theorem restore_save3 (env : Env) (k1 k2 k3 v1 v2 v3 : String)
    (h21 : k2 ≠ k1) (h31 : k3 ≠ k1) (h32 : k3 ≠ k2) :
    restore_credentials
      (setEnv (setEnv (setEnv env k1 v1) k2 v2) k3 v3)
      [(k1, env k1), (k2, setEnv env k1 v1 k2),
       (k3, setEnv (setEnv env k1 v1) k2 v2 k3)] = env := by
  have hs2 : setEnv env k1 v1 k2 = env k2 := by simp [setEnv, h21]
  have hs3 : setEnv (setEnv env k1 v1) k2 v2 k3 = env k3 := by
    simp [setEnv, h31, h32]
  funext k
  by_cases hk3 : k = k3
  · subst hk3
    simp [restore_credentials, restoreOne_self, hs3]
  · by_cases hk2 : k = k2
    · subst hk2
      simp [restore_credentials, restoreOne_other, restoreOne_self, hk3, hs2]
    · by_cases hk1 : k = k1
      · subst hk1
        simp [restore_credentials, restoreOne_other, restoreOne_self, hk3,
              hk2]
      · simp [restore_credentials, restoreOne_other, setEnv, hk1, hk2, hk3]

/-- C9: `_restore_credentials` applied to the `old_env` dictionary returned
by `_set_credentials` (both in `src/demo/app/main.py`; the same sequence is
inlined in `src/demo/streaming_app.py`) restores every mutated key to its
exact prior value — popping keys that were previously absent — so the
resulting environment equals the environment before the set, for every
prior environment and every argument combination. -/
theorem claim_C9_main :
    ∀ (env : Env) (use_vertexai api_key gcp_project gcp_location :
        Option String),
      restore_credentials
        (set_credentials env use_vertexai api_key gcp_project
          gcp_location).1
        (set_credentials env use_vertexai api_key gcp_project
          gcp_location).2 = env := by
  intro env uv ak gp gl
  cases uv with
  | none =>
      by_cases hak : truthy ak = true
      · simp only [set_credentials, hak]
        simp
        exact restore_save1 env "GOOGLE_API_KEY" (ak.getD "")
      · simp only [set_credentials, hak]
        simp [restore_credentials]
  | some v =>
      by_cases hv : v = "true"
      · subst hv
        by_cases hgp : truthy gp = true
        · by_cases hgl : truthy gl = true
          · simp only [set_credentials, hgp, hgl]
            simp
            exact restore_save3 env "GOOGLE_GENAI_USE_VERTEXAI"
              "GOOGLE_CLOUD_PROJECT" "GOOGLE_CLOUD_LOCATION" _ _ _
              (by decide) (by decide) (by decide)
          · simp only [set_credentials, hgp, hgl]
            simp
            exact restore_save2 env "GOOGLE_GENAI_USE_VERTEXAI"
              "GOOGLE_CLOUD_PROJECT" _ _ (by decide)
        · by_cases hgl : truthy gl = true
          · simp only [set_credentials, hgp, hgl]
            simp
            exact restore_save2 env "GOOGLE_GENAI_USE_VERTEXAI"
              "GOOGLE_CLOUD_LOCATION" _ _ (by decide)
          · simp only [set_credentials, hgp, hgl]
            simp
            exact restore_save1 env "GOOGLE_GENAI_USE_VERTEXAI" _
      · by_cases hak : truthy ak = true
        · simp only [set_credentials, hv, hak]
          simp [hv]
          exact restore_save2 env "GOOGLE_GENAI_USE_VERTEXAI"
            "GOOGLE_API_KEY" _ _ (by decide)
        · simp only [set_credentials, hv, hak]
          simp [hv]
          exact restore_save1 env "GOOGLE_GENAI_USE_VERTEXAI" _

end AdkBridge
